import Mathlib

/-!
Verification of `backend/app/services/vectorization_service.py`
(`VectorizationService`): binarization, the two Potrace tracing backends,
the placeholder fallback, the SVG path builder, and the SVG optimizer.

Shallow embedding conventions used throughout this file:
* 8-bit pixel values are `Nat` (the Python code only ever produces 0 or 255
  after binarization, so `Nat` subtraction `255 - x` agrees with Python).
* Python strings are Lean `String`s; Python float literals that are only
  ever rendered with `str()` (`1.0`, `0.2`) are modelled by the exact
  decimal strings `str()` produces for them.
* Potrace curve coordinates are modelled as `Int` (the claims settled here
  concern only the command structure of the emitted path data, never the
  numeric rendering of coordinates).
* An image is a function `Nat → Nat → Nat` from (row, column) to the 8-bit
  grayscale value produced by `img.convert('L')`.
-/

/-! ### Binarization (lines 83-87 and 121-126)

Both backends run the same two `Image.point` calls on the grayscale image:
`img_gray.point(lambda x: 255 if x > threshold else 0, '1')`, followed by
`img_bw.point(lambda x: 255 - x)` when `invert` is set.  In a PIL `'1'`
image the value 0 renders black and 255 renders white. -/

/-- Lines 83-87: pixel-level binarization of the pypotrace backend.
Returns the `'1'`-image value (0 = black, 255 = white) for a grayscale
input value `x`. -/
def binarize_pypotrace (threshold : Nat) (invert : Bool) (x : Nat) : Nat :=
  let bw := if x > threshold then 255 else 0
  if invert then 255 - bw else bw

/-- Lines 121-126: pixel-level binarization of the CLI backend
(textually identical to the pypotrace backend's). -/
def binarize_cli (threshold : Nat) (invert : Bool) (x : Nat) : Nat :=
  let bw := if x > threshold then 255 else 0
  if invert then 255 - bw else bw

/-- Line 89: `np.array(img_bw, dtype=bool)` maps a `'1'`-image pixel to
`True` exactly when it is nonzero (i.e. white).  `pypotrace.Bitmap` treats
a `True`/nonzero entry as foreground ("0: white, other: black" in the
pypotrace documentation), so this is the foreground mask the in-process
tracer actually traces. -/
def pypotraceForeground (threshold : Nat) (invert : Bool) (x : Nat) : Bool :=
  binarize_pypotrace threshold invert x != 0

/-- Line 133: `img_bw.save(pbm_path)` writes the `'1'` image as a PBM
bitmap, in which a 1-bit denotes a *black* pixel; the `potrace` binary
traces the black pixels.  So the CLI tracer's foreground mask is the set
of pixels whose `'1'`-image value is 0. -/
def cliForeground (threshold : Nat) (invert : Bool) (x : Nat) : Bool :=
  binarize_cli threshold invert x == 0

/-- Line 48: the default `threshold` argument of `bitmap_to_svg`. -/
def defaultThreshold : Nat := 128

/-- A grayscale image every pixel of which is pure white (value 255). -/
def allWhiteImage : Nat → Nat → Nat := fun _ _ => 255

/-- A grayscale image every pixel of which is pure black (value 0). -/
def allBlackImage : Nat → Nat → Nat := fun _ _ => 0

/-- Lines 83-89: the boolean bitmap handed to `pypotrace.Bitmap` for a
given grayscale image, pointwise. -/
def pypotraceTraceBitmap (img : Nat → Nat → Nat) (threshold : Nat)
    (invert : Bool) : Nat → Nat → Bool :=
  fun i j => pypotraceForeground threshold invert (img i j)

/-! ### Default tracer parameters and backend invocations (lines 35-43,
92-98, 136-147) -/

/-- Lines 37-43: `self.default_params`.  The float fields hold the exact
strings Python's `str()` renders for the float literals in the source. -/
structure DefaultParams where
  turnpolicy : String
  turdsize : Nat
  alphamax : String
  opticurve : Bool
  opttolerance : String
  deriving DecidableEq

def default_params : DefaultParams :=
  { turnpolicy := "minority"
    turdsize := 2
    alphamax := "1.0"
    opticurve := true
    opttolerance := "0.2" }

/-- The keyword arguments of the `bmp.trace(...)` call, lines 92-98. -/
structure TraceKwargs where
  turdsize : Nat
  turnpolicy : String
  alphamax : String
  opticurve : Bool
  opttolerance : String
  deriving DecidableEq

/-- Lines 92-98: the pypotrace backend's trace call passes every default
parameter through, including the turn policy. -/
def pypotraceTraceCall : TraceKwargs :=
  { turdsize := default_params.turdsize
    turnpolicy := default_params.turnpolicy
    alphamax := default_params.alphamax
    opticurve := default_params.opticurve
    opttolerance := default_params.opttolerance }

/-- Line 129: `os.path.join(tmpdir, "input.pbm")` (temp dir names produced
by `tempfile` never end in a slash). -/
def pbm_path (tmpdir : String) : String := tmpdir ++ "/input.pbm"

/-- Line 130: `os.path.join(tmpdir, "output.svg")`. -/
def svg_path (tmpdir : String) : String := tmpdir ++ "/output.svg"

/-- Lines 136-147: the argument list of the external `potrace` command.
`str(2) = "2"`; `--longcurve` is appended exactly when `opticurve` is
false. -/
def cliCmd (tmpdir : String) : List String :=
  let cmd := ["potrace", pbm_path tmpdir, "--svg",
    "--output", svg_path tmpdir,
    "--turdsize", toString default_params.turdsize,
    "--alphamax", default_params.alphamax,
    "--opttolerance", default_params.opttolerance]
  if !default_params.opticurve then cmd ++ ["--longcurve"] else cmd

/-! ### The CLI backend's control flow (lines 128-171)

`subprocess.run` is an external effect; its four possible outcomes at this
call site (normal completion, `FileNotFoundError`, `CalledProcessError`
from `check=True`, `TimeoutExpired` from `timeout=60`) are modelled as an
outcome parameter.  The `with tempfile.TemporaryDirectory()` statement is
modelled by its try/finally semantics: the directory-removal event is
appended after the body's events whether the body finishes normally or
leaves early via one of the `return` statements in the `except` handlers.
The returned `String` is total: in the three error outcomes the function
returns the placeholder and no exception propagates to the caller. -/

inductive RunOutcome where
  | success (svgFileContent : String)
  | fileNotFound
  | calledProcessError (stderr : String)
  | timeoutExpired
  deriving DecidableEq

inductive CliEvent where
  | createTempDir
  | savePbm
  | runPotrace (timeoutSeconds : Nat)
  | readSvgFile
  | removeTempDir
  deriving DecidableEq

/-- Python `with` semantics: run the acquired-resource body, then release
the resource on every exit path (normal or early `return`). -/
def withTempDirEvents (bodyEvents : List CliEvent) : List CliEvent :=
  [CliEvent.createTempDir] ++ bodyEvents ++ [CliEvent.removeTempDir]

/-- Lines 177-183: `_placeholder_svg`, the minimal empty-but-valid SVG. -/
def placeholder_svg (width height : Nat) : String :=
  "<svg xmlns=\"http://www.w3.org/2000/svg\" " ++
  "width=\"" ++ toString width ++ "\" height=\"" ++ toString height ++ "\" " ++
  "viewBox=\"0 0 " ++ toString width ++ " " ++ toString height ++ "\" " ++
  "version=\"1.1\"></svg>"

/-- Lines 128-171: `_vectorize_with_cli` from the point where the temp
directory is opened, as a function of the subprocess outcome.  Returns the
event trace and the string result handed back to the caller. -/
def vectorize_with_cli (outcome : RunOutcome) (width height : Nat) :
    List CliEvent × String :=
  match outcome with
  | .success content =>
      (withTempDirEvents [.savePbm, .runPotrace 60, .readSvgFile], content)
  | .fileNotFound =>
      (withTempDirEvents [.savePbm, .runPotrace 60], placeholder_svg width height)
  | .calledProcessError _ =>
      (withTempDirEvents [.savePbm, .runPotrace 60], placeholder_svg width height)
  | .timeoutExpired =>
      (withTempDirEvents [.savePbm, .runPotrace 60], placeholder_svg width height)

/-! ### The in-process backend's SVG builder (lines 185-226) -/

/-- A potrace curve point; coordinates modelled as integers (see header). -/
structure Point where
  x : Int
  y : Int
  deriving DecidableEq

/-- A potrace curve segment: `is_corner` segments carry `c` and
`end_point`, smooth segments carry `c1`, `c2` and `end_point`. -/
inductive Segment where
  | corner (c : Point) (endPoint : Point)
  | curve (c1 : Point) (c2 : Point) (endPoint : Point)
  deriving DecidableEq

/-- One traced closed contour as delivered by pypotrace. -/
structure Curve where
  start_point : Point
  segments : List Segment
  deriving DecidableEq

/-- The f-string `f'{p.x},{p.y}'`. -/
def pointStr (p : Point) : String := toString p.x ++ "," ++ toString p.y

/-- Lines 203-215: the path-data entries appended for one segment. -/
def segmentData : Segment → List String
  | .corner c e => ["L " ++ pointStr c, "L " ++ pointStr e]
  | .curve c1 c2 e =>
      ["C " ++ pointStr c1 ++ " " ++ pointStr c2 ++ " " ++ pointStr e]

/-- Lines 198-217: the `path_data` list built for one curve: a move to the
start point, the segment entries, and a final close. -/
def curvePathData (cv : Curve) : List String :=
  ["M " ++ pointStr cv.start_point] ++ (cv.segments.map segmentData).flatten ++ ["Z"]

/-- Lines 219-223: one emitted `path` element. -/
structure PathElem where
  d : String
  fill : String
  stroke : String
  deriving DecidableEq

/-- Lines 219-224: the `path` element appended for one curve. -/
def curveToElem (cv : Curve) : PathElem :=
  { d := String.intercalate " " (curvePathData cv)
    fill := "black"
    stroke := "none" }

/-- Lines 189-195: the `svg` root element with its attributes. -/
structure SvgRoot where
  xmlns : String
  width : String
  height : String
  viewBox : String
  version : String
  children : List PathElem
  deriving DecidableEq

/-- Lines 185-226: `_path_to_svg`, producing the root element and one
`path` child per traced curve. -/
def path_to_svg (path : List Curve) (width height : Nat) : SvgRoot :=
  { xmlns := "http://www.w3.org/2000/svg"
    width := toString width
    height := toString height
    viewBox := "0 0 " ++ toString width ++ " " ++ toString height
    version := "1.1"
    children := path.map curveToElem }

/-- A concrete two-segment closed contour used by witness theorems. -/
def demoCurve : Curve :=
  { start_point := ⟨0, 0⟩
    segments := [Segment.corner ⟨2, 0⟩ ⟨2, 2⟩, Segment.curve ⟨1, 3⟩ ⟨0, 3⟩ ⟨0, 0⟩] }

/-! ### The SVG optimizer (lines 228-279)

`optimize_svg` uses the external `scour` library when it imports; the
configuration modelled here is the `ImportError` branch (lines 250-252),
in which `optimize_svg` is exactly `_basic_svg_optimization`.

`_basic_svg_optimization` parses the SVG string with `ET.fromstring`,
runs a comment-removal loop over `root.iter()`, indents the tree with
`_indent_xml(root, 0)`, and serializes it back with `ET.tostring`.
A valid SVG string is represented by its parse tree (`XmlRoot`); the
serialization step is `serializeRoot` below.

The decisive piece of CPython semantics: `ET.fromstring` uses the
default `XMLParser`/`TreeBuilder`, which does *not* insert comment
nodes — every comment in the SVG text, top-level or nested, is discarded
during parsing.  A real parse result therefore never contains a comment
node; `hasCommentForest r.children = false` is the invariant
characterizing the trees `ET.fromstring` hands to this code, and under
it the removal loop is a no-op (`removeLoop_ok_of_commentFree`) and
`root.remove` is never called.  `removeLoop` still transcribes the loop
of lines 258-260 in full — including the `ValueError` that
`root.remove` would raise on a node that is not a direct child of the
root, and the sibling-skipping behavior of removing from a list that is
being iterated — but those branches are dead code under the parse
invariant.

Python's blank test `not s or not s.strip()` holds for `None`, for the
empty string and for all-whitespace strings; text and tails are stored
as `Option (List Char)` and the test is `blankO`.
-/

inductive PyExn where
  | valueError
  deriving DecidableEq

mutual
/-- An ElementTree node: a regular element (tag, attributes, text,
children, tail) or a comment (text, tail).  The comment constructor
exists because the loop of lines 258-260 tests for it
(`elem.tag is ET.Comment`); trees produced by the default parser never
contain it. -/
inductive XmlNode where
  | elem (tag : String) (attrs : List (String × String))
      (text : Option (List Char)) (children : XmlForest)
      (tail : Option (List Char)) : XmlNode
  | comment (ctext : List Char) (tail : Option (List Char)) : XmlNode

/-- The children list of an element. -/
inductive XmlForest where
  | nil : XmlForest
  | cons (hd : XmlNode) (tl : XmlForest) : XmlForest
end

/-- The root element returned by `ET.fromstring` (always a regular
element: a parse whose root is not an element fails before this code).
Real parse results satisfy `hasCommentForest children = false`, because
the default parser discards every comment. -/
structure XmlRoot where
  tag : String
  attrs : List (String × String)
  text : Option (List Char)
  children : XmlForest
  tail : Option (List Char)

/-- Python's blank test for text/tail slots:
`not s or not s.strip()`. -/
def blankChars (s : List Char) : Bool := s.all Char.isWhitespace

def blankO : Option (List Char) → Bool
  | none => true
  | some s => blankChars s

/-- `len(elem) == 0` for the children list. -/
def isNilF : XmlForest → Bool
  | .nil => true
  | .cons _ _ => false

mutual
def hasCommentNode : XmlNode → Bool
  | .comment _ _ => true
  | .elem _ _ _ children _ => hasCommentForest children

def hasCommentForest : XmlForest → Bool
  | .nil => false
  | .cons c cs => hasCommentNode c || hasCommentForest cs
end

/-- Lines 258-260: the comment-removal loop
`for elem in root.iter(): if elem.tag is ET.Comment: root.remove(elem)`,
over the root's children (the root itself, yielded first by `iter()`, is
an element and is never removed).  The comment branches (removal with
its sibling-skip, and the `ValueError` of `root.remove` on a nested
node) transcribe what the interpreter would do, but are unreachable in
the program: the default parser's trees contain no comment nodes, and on
such trees the loop is the identity (`removeLoop_ok_of_commentFree`). -/
def removeLoop : XmlForest → Except PyExn XmlForest
  | .nil => .ok .nil
  | .cons (.comment _ _) .nil => .ok .nil
  | .cons (.comment _ _) (.cons d ds) =>
      -- dead under the parse invariant: the comment is removed and `d`
      -- slides into the list slot the iterator has already passed
      match removeLoop ds with
      | .error e => .error e
      | .ok r => .ok (.cons d r)
  | .cons (.elem t a tx ch tl) cs =>
      -- the element is yielded (kept), then its descendants; a nested
      -- comment (never present in a parsed tree) would make
      -- `root.remove` raise
      if hasCommentForest ch then .error .valueError
      else
        match removeLoop cs with
        | .error e => .error e
        | .ok r => .ok (.cons (.elem t a tx ch tl) r)

/-- The indentation string `"\n" + "  " * level` of `_indent_xml`. -/
def indentChars (level : Nat) : List Char :=
  '\n' :: List.replicate (2 * level) ' '

/-- Read the tail slot of a node. -/
def tailOf : XmlNode → Option (List Char)
  | .elem _ _ _ _ tl => tl
  | .comment _ tl => tl

/-- Replace the tail slot of a node. -/
def withTail (v : Option (List Char)) : XmlNode → XmlNode
  | .elem t a tx ch _ => .elem t a tx ch v
  | .comment c _ => .comment c v

/-- `if not child.tail or not child.tail.strip(): child.tail = indent`. -/
def setTailIfBlank (ind : List Char) (n : XmlNode) : XmlNode :=
  if blankO (tailOf n) then withTail (some ind) n else n

/-- Lines 274-276: after the recursion, the loop variable still holds the
last child, whose tail is reset to the *parent's* indent when blank. -/
def fixLast (ind : List Char) : XmlForest → XmlForest
  | .nil => .nil
  | .cons c .nil => .cons (setTailIfBlank ind c) .nil
  | .cons c cs => .cons c (fixLast ind cs)

mutual
/-- Lines 265-279: `_indent_xml(elem, level)`.  An element with children
gets its text and tail set to the level's indent when blank, its children
indented one level deeper, and its last child's tail reset to the level's
indent; a childless element or a comment (for which `len(elem)` is 0)
only gets its tail set, and only when `level` is nonzero. -/
def indentNode (level : Nat) : XmlNode → XmlNode
  | .comment c tl =>
      .comment c
        (if (level != 0) && blankO tl then some (indentChars level) else tl)
  | .elem tag attrs text children tl =>
      if isNilF children then
        .elem tag attrs text children
          (if (level != 0) && blankO tl then some (indentChars level) else tl)
      else
        .elem tag attrs
          (if blankO text then some (indentChars level ++ [' ', ' ']) else text)
          (fixLast (indentChars level) (indentForest (level + 1) children))
          (if blankO tl then some (indentChars level) else tl)

def indentForest (level : Nat) : XmlForest → XmlForest
  | .nil => .nil
  | .cons c cs => .cons (indentNode level c) (indentForest level cs)
end

/-- Line 262: `self._indent_xml(root, 0)`, i.e. `indentNode 0` applied to
the root element (at level 0 a childless root is left untouched). -/
def indentRoot (r : XmlRoot) : XmlRoot :=
  if isNilF r.children then r
  else
    { r with
      text := if blankO r.text then some (indentChars 0 ++ [' ', ' ']) else r.text
      children := fixLast (indentChars 0) (indentForest 1 r.children)
      tail := if blankO r.tail then some (indentChars 0) else r.tail }

/-- Lines 254-263: `_basic_svg_optimization` at tree level: applied to
the tree `ET.fromstring(svg_content)` returned — which, because the
default parser discards comments, satisfies
`hasCommentForest r.children = false` — it runs the comment-removal loop
(a provable no-op on such trees) and then `_indent_xml(root, 0)`. -/
def basic_svg_optimization (r : XmlRoot) : Except PyExn XmlRoot :=
  match removeLoop r.children with
  | .error e => .error e
  | .ok ch => .ok (indentRoot { r with children := ch })

/-- Lines 228-252: `optimize_svg` in the configuration where the external
`scour` library is unavailable (the `ImportError` branch, lines 250-252),
in which it is exactly the basic optimizer.  Its argument is the parse
tree of the input SVG string; comment-free, as the default parser
guarantees. -/
def optimize_svg (r : XmlRoot) : Except PyExn XmlRoot :=
  basic_svg_optimization r

mutual
/-- `ET.tostring(..., encoding='unicode')`: elements with falsy text and
no children serialize as `<tag attrs />`; comments as `<!--text-->`;
tails are emitted after the node.  (Entity escaping is omitted: no text
produced or consumed in this service contains markup characters.) -/
def serializeNode : XmlNode → String
  | .elem tag attrs text children tl =>
      let attrStr := String.join (attrs.map fun kv => " " ++ kv.1 ++ "=\"" ++ kv.2 ++ "\"")
      let tailStr := match tl with | none => "" | some l => String.mk l
      let textStr := match text with | none => "" | some l => String.mk l
      if textStr = "" && isNilF children then
        "<" ++ tag ++ attrStr ++ " />" ++ tailStr
      else
        "<" ++ tag ++ attrStr ++ ">" ++ textStr ++ serializeForest children ++
          "</" ++ tag ++ ">" ++ tailStr
  | .comment ctext tl =>
      let tailStr := match tl with | none => "" | some l => String.mk l
      "<!--" ++ String.mk ctext ++ "-->" ++ tailStr

def serializeForest : XmlForest → String
  | .nil => ""
  | .cons c cs => serializeNode c ++ serializeForest cs
end

def serializeRoot (r : XmlRoot) : String :=
  serializeNode (.elem r.tag r.attrs r.text r.children r.tail)

/-- The parse tree of the comment-free SVG `<svg><g /></svg>`, used by
witness theorems. -/
def c7free : XmlRoot :=
  { tag := "svg"
    attrs := []
    text := none
    children := .cons (.elem "g" [] none .nil none) .nil
    tail := none }

/-- The tree `ET.fromstring` returns for the valid SVG
`<svg><g><!--x--></g></svg>`, whose only comment is nested inside a
child element: the default parser does not insert comment nodes, so the
tree is `<svg><g /></svg>` — the nested comment is already gone before
the removal loop runs. -/
def c10parsed : XmlRoot :=
  { tag := "svg"
    attrs := []
    text := none
    children := .cons (.elem "g" [] none .nil none) .nil
    tail := none }

/-- Proof-layer view of the tail updates performed by `_indent_xml`: a
guarded reset of a blank tail to the level's indent.  `indentNode`'s tail
updates are definitionally `tailStep (level != 0)` (childless nodes and
comments) and `tailStep true` (elements with children). -/
def tailStep (g : Bool) (l : Nat) (v : Option (List Char)) : Option (List Char) :=
  if g && blankO v then some (indentChars l) else v

/-- Proof-layer view of the unguarded blank-tail reset performed by
`setTailIfBlank` and of the text update of an element with children. -/
def tailStb (ind : List Char) (v : Option (List Char)) : Option (List Char) :=
  if blankO v then some ind else v

/-- Which guard `indentNode level` applies to a node's tail: elements
with children use the unguarded update, everything else requires
`level != 0`. -/
def tailGuard (l : Nat) : XmlNode → Bool
  | .elem _ _ _ (.cons _ _) _ => true
  | _ => l != 0

/-! ## Theorems -/

/-- Claim C1 (confirmed): when the CLI tracing backend runs and the
external potrace process is missing (`FileNotFoundError`), exits non-zero
(`CalledProcessError`), or exceeds the 60-second timeout
(`TimeoutExpired`), `_vectorize_with_cli` returns the minimal
empty-but-valid placeholder SVG whose `width`, `height` and `viewBox`
attributes carry the input image's dimensions; the result is an ordinary
return value, never a propagated exception. -/
theorem c1_cli_failure_returns_placeholder (w h : Nat) (stderr : String) :
    (vectorize_with_cli .fileNotFound w h).2 = placeholder_svg w h ∧
    (vectorize_with_cli (.calledProcessError stderr) w h).2 = placeholder_svg w h ∧
    (vectorize_with_cli .timeoutExpired w h).2 = placeholder_svg w h ∧
    CliEvent.runPotrace 60 ∈ (vectorize_with_cli .timeoutExpired w h).1 ∧
    placeholder_svg w h =
      "<svg xmlns=\"http://www.w3.org/2000/svg\" " ++
      "width=\"" ++ toString w ++ "\" height=\"" ++ toString h ++ "\" " ++
      "viewBox=\"0 0 " ++ toString w ++ " " ++ toString h ++ "\" " ++
      "version=\"1.1\"></svg>" := by
  refine ⟨rfl, rfl, rfl, ?_, rfl⟩
  simp [vectorize_with_cli, withTempDirEvents]

/-- Claim C2 counterexample: a pixel of luminance 200 with threshold 128
(no invert) is mapped by both backends to 255, which is *white* in a PIL
`'1'` image — the claim says it is mapped to black.  Moreover the two
backends do not treat the result identically at the tracer: the
in-process backend traces this pixel as foreground while the CLI/PBM
backend does not. -/
theorem c2_counterexample :
    binarize_pypotrace 128 false 200 = 255 ∧
    binarize_cli 128 false 200 = 255 ∧
    (255 : Nat) ≠ 0 ∧
    pypotraceForeground 128 false 200 = true ∧
    cliForeground 128 false 200 = false := by
  decide

/-- Claim C2 amended (and proved): with invert=false the binarization
maps a pixel to *white* (255) exactly when its 8-bit luminance is
strictly greater than the threshold, and to black (0) otherwise; with
invert=true the mapping is reversed (`255 - x`).  The pixel-level map is
identical in both tracing backends — but the foreground handed to the
tracers is not: the in-process tracer's foreground is the white
(luminance > threshold) pixels, while the CLI tracer's foreground (the
PBM's black bits) is their complement. -/
theorem c2_binarization_amended (threshold x : Nat) :
    (binarize_pypotrace threshold false x = 255 ↔ x > threshold) ∧
    (binarize_pypotrace threshold false x = 0 ↔ ¬ x > threshold) ∧
    (∀ invert, binarize_cli threshold invert x = binarize_pypotrace threshold invert x) ∧
    binarize_pypotrace threshold true x = 255 - binarize_pypotrace threshold false x ∧
    (pypotraceForeground threshold false x = true ↔ x > threshold) ∧
    cliForeground threshold false x = !pypotraceForeground threshold false x := by
  by_cases hx : x > threshold <;>
    simp [binarize_pypotrace, binarize_cli, pypotraceForeground, cliForeground, hx]

/-- Claim C4 counterexample: the potrace CLI command line does not carry
the configured turn-policy at all — neither a `--turnpolicy` flag nor the
value `minority` appears among its arguments. -/
theorem c4_counterexample :
    "--turnpolicy" ∉ cliCmd "/tmp/tmpabc" ∧
    "minority" ∉ cliCmd "/tmp/tmpabc" ∧
    default_params.turnpolicy = "minority" := by
  decide

/-- Claim C4 amended (and proved): the configured smoothing parameters
are turn-policy "minority", turdsize 2 and curve-fit tolerance 0.2; the
pypotrace trace call carries all of them, and the potrace CLI command
line carries the turdsize and tolerance (and alphamax) but omits the
turn-policy option (so the external binary falls back to its own
default). -/
theorem c4_tracer_params_amended (tmpdir : String) :
    pypotraceTraceCall.turnpolicy = "minority" ∧
    pypotraceTraceCall.turdsize = 2 ∧
    pypotraceTraceCall.opttolerance = "0.2" ∧
    pypotraceTraceCall.alphamax = "1.0" ∧
    "--turdsize" ∈ cliCmd tmpdir ∧
    toString default_params.turdsize ∈ cliCmd tmpdir ∧
    "--opttolerance" ∈ cliCmd tmpdir ∧
    default_params.opttolerance ∈ cliCmd tmpdir ∧
    "--alphamax" ∈ cliCmd tmpdir ∧
    "--turnpolicy" ∉ cliCmd "/tmp/tmpxyz" := by
  refine ⟨rfl, rfl, rfl, rfl, ?_, ?_, ?_, ?_, ?_, by decide⟩ <;>
    simp [cliCmd, default_params]

/-- Claim C6 counterexample: an all-white raster does *not* binarize to
an empty foreground in the in-process backend — every pixel of value 255
is above the default threshold 128, becomes white (255), and is handed to
`pypotrace.Bitmap` as a `True` (foreground) entry, so the tracer traces
the whole image rather than nothing. -/
theorem c6_counterexample :
    pypotraceTraceBitmap allWhiteImage defaultThreshold false 0 0 = true ∧
    binarize_pypotrace defaultThreshold false 255 = 255 := by
  decide

/-- Claim C6 amended (and proved): for a raster whose binarization yields
no foreground region in the in-process backend (e.g. an all-*black*
image at the default threshold 128, invert=false, every pixel of which is
background), the traced path set is empty and `_path_to_svg` renders an
SVG root element with zero path children and with `width`, `height` and
`viewBox` attributes equal to the source image's dimensions. -/
theorem c6_empty_trace_amended :
    (∀ i j, pypotraceTraceBitmap allBlackImage defaultThreshold false i j = false) ∧
    ∀ w h : Nat,
      (path_to_svg [] w h).children = [] ∧
      (path_to_svg [] w h).width = toString w ∧
      (path_to_svg [] w h).height = toString h ∧
      (path_to_svg [] w h).viewBox = "0 0 " ++ toString w ++ " " ++ toString h := by
  exact ⟨fun i j => rfl, fun w h => ⟨rfl, rfl, rfl, rfl⟩⟩

/-- Claim C8 (confirmed): in the CLI tracing backend the temporary
directory is removed on every execution path — success, missing binary,
non-zero process exit, and timeout: the removal event closes the event
trace for every subprocess outcome. -/
theorem c8_tempdir_removed_on_all_paths (outcome : RunOutcome) (w h : Nat) :
    (vectorize_with_cli outcome w h).1.getLast? = some CliEvent.removeTempDir ∧
    (vectorize_with_cli outcome w h).1.head? = some CliEvent.createTempDir := by
  cases outcome <;> exact ⟨rfl, rfl⟩

/-- Claim C9 (confirmed): in both backends, the binary bitmap produced
with invert=true is the exact pixelwise complement of the bitmap produced
with invert=false for the same image and threshold: the `'1'`-image value
is `255 - x` of the non-inverted one, and the boolean foreground masks of
both tracers flip pointwise. -/
theorem c9_invert_complements (threshold x : Nat) :
    binarize_pypotrace threshold true x = 255 - binarize_pypotrace threshold false x ∧
    binarize_cli threshold true x = 255 - binarize_cli threshold false x ∧
    pypotraceForeground threshold true x = !pypotraceForeground threshold false x ∧
    cliForeground threshold true x = !cliForeground threshold false x := by
  by_cases hx : x > threshold <;>
    simp [binarize_pypotrace, binarize_cli, pypotraceForeground, cliForeground, hx]

/-- Claim C3 (confirmed): every SVG path element emitted by the
in-process backend's SVG builder has path data that starts with a move
command (`M`), ends with a close command (`Z`), and contains only the
four command kinds move, line, cubic-curve and close. -/
theorem c3_path_data_closed_commands (path : List Curve) (w h : Nat) (e : PathElem)
    (he : e ∈ (path_to_svg path w h).children) :
    ∃ cv, cv ∈ path ∧
      e.d = String.intercalate " " (curvePathData cv) ∧
      (curvePathData cv).head? = some ("M " ++ pointStr cv.start_point) ∧
      (curvePathData cv).getLast? = some "Z" ∧
      ∀ s ∈ curvePathData cv,
        s.data.head? = some 'M' ∨ s.data.head? = some 'L' ∨
        s.data.head? = some 'C' ∨ s = "Z" := by
  simp only [path_to_svg, List.mem_map] at he
  obtain ⟨cv, hcv, rfl⟩ := he
  refine ⟨cv, hcv, rfl, by simp [curvePathData], ?_, ?_⟩
  · rw [show curvePathData cv = (("M " ++ pointStr cv.start_point) ::
        (List.map segmentData cv.segments).flatten) ++ "Z" :: [] from rfl,
      List.getLast?_append_cons]
    rfl
  · intro s hs
    simp only [curvePathData, List.mem_append, List.mem_flatten, List.mem_map,
      List.mem_singleton] at hs
    rcases hs with (hM | ⟨l, ⟨seg, _, rfl⟩, hsl⟩) | hZ
    · subst hM
      left
      rw [String.data_append]
      rfl
    · cases seg with
      | corner c e =>
          simp only [segmentData, List.mem_cons, List.mem_singleton] at hsl
          rcases hsl with rfl | rfl | h
          · right; left; rw [String.data_append]; rfl
          · right; left; rw [String.data_append]; rfl
          · cases h
      | curve c1 c2 e =>
          simp only [segmentData, List.mem_singleton] at hsl
          subst hsl
          right; right; left
          rw [String.data_append]
          rfl
    · subst hZ
      right; right; right
      rfl

/-- Witness for C3 at a concrete traced contour. -/
theorem c3_witness :
    curveToElem demoCurve ∈ (path_to_svg [demoCurve] 5 5).children ∧
    (∃ cv, cv ∈ [demoCurve] ∧
      (curveToElem demoCurve).d = String.intercalate " " (curvePathData cv) ∧
      (curvePathData cv).head? = some ("M " ++ pointStr cv.start_point) ∧
      (curvePathData cv).getLast? = some "Z" ∧
      ∀ s ∈ curvePathData cv,
        s.data.head? = some 'M' ∨ s.data.head? = some 'L' ∨
        s.data.head? = some 'C' ∨ s = "Z") :=
  ⟨by simp [path_to_svg],
   c3_path_data_closed_commands [demoCurve] 5 5 _ (by simp [path_to_svg])⟩

/-- Claim C5 (confirmed): every SVG path element produced by the
in-process backend is filled and stroke-less — its `fill` attribute is
"black" and its `stroke` attribute is "none". -/
theorem c5_paths_filled_strokeless (path : List Curve) (w h : Nat) (e : PathElem)
    (he : e ∈ (path_to_svg path w h).children) :
    e.fill = "black" ∧ e.stroke = "none" := by
  simp only [path_to_svg, List.mem_map] at he
  obtain ⟨cv, _, rfl⟩ := he
  exact ⟨rfl, rfl⟩

/-- Witness for C5 at a concrete traced contour. -/
theorem c5_witness :
    curveToElem demoCurve ∈ (path_to_svg [demoCurve] 3 4).children ∧
    (curveToElem demoCurve).fill = "black" ∧
    (curveToElem demoCurve).stroke = "none" :=
  ⟨by simp [path_to_svg],
   c5_paths_filled_strokeless [demoCurve] 3 4 _ (by simp [path_to_svg])⟩

/-! ### Supporting lemmas for the optimizer -/

theorem blankChars_indentChars (l : Nat) : blankChars (indentChars l) = true := by
  simp only [blankChars, indentChars, List.all_cons, Bool.and_eq_true, List.all_eq_true]
  refine ⟨by decide, fun c hc => ?_⟩
  rw [List.eq_of_mem_replicate hc]
  decide

theorem blankChars_textIndent (l : Nat) :
    blankChars (indentChars l ++ [' ', ' ']) = true := by
  simp only [blankChars, List.all_append, Bool.and_eq_true]
  exact ⟨blankChars_indentChars l, by decide⟩

theorem isNilF_indentForest (l : Nat) (F : XmlForest) :
    isNilF (indentForest l F) = isNilF F := by
  cases F <;> rfl

theorem isNilF_fixLast (ind : List Char) (F : XmlForest) :
    isNilF (fixLast ind F) = isNilF F := by
  cases F with
  | nil => rfl
  | cons c cs => cases cs <;> rfl

theorem exists_cons_of_not_isNilF :
    ∀ (F : XmlForest), isNilF F = false → ∃ c cs, F = .cons c cs
  | .cons c cs, _ => ⟨c, cs, rfl⟩
  | .nil, h => by simp [isNilF] at h

theorem withTail_tailOf (n : XmlNode) : withTail (tailOf n) n = n := by
  cases n <;> rfl

theorem tailOf_withTail (v : Option (List Char)) (n : XmlNode) :
    tailOf (withTail v n) = v := by
  cases n <;> rfl

theorem withTail_withTail (v w : Option (List Char)) (n : XmlNode) :
    withTail v (withTail w n) = withTail v n := by
  cases n <;> rfl

theorem tailGuard_withTail (l : Nat) (v : Option (List Char)) (n : XmlNode) :
    tailGuard l (withTail v n) = tailGuard l n := by
  cases n with
  | comment c tl => rfl
  | elem t a tx ch tl => cases ch <;> rfl

theorem setTailIfBlank_eq (ind : List Char) (n : XmlNode) :
    setTailIfBlank ind n = withTail (tailStb ind (tailOf n)) n := by
  unfold setTailIfBlank tailStb
  by_cases h : blankO (tailOf n) = true
  · simp [h]
  · simp [h, withTail_tailOf]

theorem blankO_some (s : List Char) : blankO (some s) = blankChars s := rfl

theorem tailStep_idem (g : Bool) (l : Nat) (v : Option (List Char)) :
    tailStep g l (tailStep g l v) = tailStep g l v := by
  unfold tailStep
  cases hgv : (g && blankO v) with
  | false => simp [hgv]
  | true =>
      have hg : g = true := by
        cases g
        · simp at hgv
        · rfl
      simp [hgv, hg, blankO_some, blankChars_indentChars]

theorem tailStb_idem (ind : List Char) (h : blankChars ind = true)
    (v : Option (List Char)) : tailStb ind (tailStb ind v) = tailStb ind v := by
  unfold tailStb
  cases hv : blankO v with
  | false => simp [hv]
  | true => simp [hv, blankO_some, h]

theorem tailStb_step_stb (g : Bool) (l : Nat) (ind : List Char)
    (h : blankChars ind = true) (v : Option (List Char)) :
    tailStb ind (tailStep g l (tailStb ind v)) = tailStb ind v := by
  cases hv : blankO v with
  | false => simp [tailStb, tailStep, hv]
  | true =>
      cases g <;>
        simp [tailStb, tailStep, hv, blankO_some, h, blankChars_indentChars]

theorem indentNode_comment (l : Nat) (c : List Char) (tl : Option (List Char)) :
    indentNode l (.comment c tl) = .comment c (tailStep (l != 0) l tl) := rfl

theorem indentNode_elem (l : Nat) (t : String) (a : List (String × String))
    (tx : Option (List Char)) (ch : XmlForest) (tl : Option (List Char)) :
    indentNode l (.elem t a tx ch tl) =
      if isNilF ch then .elem t a tx ch (tailStep (l != 0) l tl)
      else .elem t a (tailStb (indentChars l ++ [' ', ' ']) tx)
        (fixLast (indentChars l) (indentForest (l + 1) ch))
        (tailStep true l tl) := by
  unfold indentNode tailStep tailStb
  by_cases h : isNilF ch = true <;> simp [h]

theorem indentForest_cons_shape (l : Nat) (c : XmlNode) (cs : XmlForest) :
    indentForest l (.cons c cs) = .cons (indentNode l c) (indentForest l cs) := rfl

theorem fixLast_singleton (ind : List Char) (c : XmlNode) :
    fixLast ind (.cons c .nil) = .cons (setTailIfBlank ind c) .nil := rfl

theorem fixLast_cons_cons (ind : List Char) (c d : XmlNode) (ds : XmlForest) :
    fixLast ind (.cons c (.cons d ds)) = .cons c (fixLast ind (.cons d ds)) := rfl

theorem tailGuard_indentNode (l l' : Nat) (n : XmlNode) :
    tailGuard l (indentNode l' n) = tailGuard l n := by
  cases n with
  | comment c tl => rfl
  | elem t a tx ch tl =>
      cases ch with
      | nil => rfl
      | cons c cs => cases cs <;> rfl

theorem indentNode_withTail (l : Nat) (v : Option (List Char)) (n : XmlNode) :
    indentNode l (withTail v n) =
      withTail (tailStep (tailGuard l n) l v) (indentNode l n) := by
  cases n with
  | comment c tl => rfl
  | elem t a tx ch tl => cases ch <;> rfl

theorem tailOf_indentNode (l : Nat) (n : XmlNode) :
    tailOf (indentNode l n) = tailStep (tailGuard l n) l (tailOf n) := by
  cases n with
  | comment c tl => rfl
  | elem t a tx ch tl => cases ch <;> rfl

/-- The uniform last-child composition step: re-indenting and re-fixing a
node that is already indented and fixed changes nothing. -/
theorem setTail_indent_setTail (l : Nat) (ind : List Char)
    (hind : blankChars ind = true) (u : XmlNode) (hu : indentNode l u = u) :
    setTailIfBlank ind (indentNode l (setTailIfBlank ind u)) = setTailIfBlank ind u := by
  rw [setTailIfBlank_eq ind u, indentNode_withTail, hu, setTailIfBlank_eq,
    tailOf_withTail, withTail_withTail, tailStb_step_stb _ _ _ hind]

theorem hasComment_setTailIfBlank (ind : List Char) (n : XmlNode) :
    hasCommentNode (setTailIfBlank ind n) = hasCommentNode n := by
  rw [setTailIfBlank_eq]
  cases n <;> rfl

theorem hasComment_fixLast : ∀ (ind : List Char) (F : XmlForest),
    hasCommentForest (fixLast ind F) = hasCommentForest F
  | _, .nil => rfl
  | ind, .cons c .nil => by
      simp [fixLast_singleton, hasCommentForest, hasComment_setTailIfBlank]
  | ind, .cons c (.cons d ds) => by
      simp [fixLast_cons_cons, hasCommentForest, hasComment_fixLast ind (.cons d ds)]

mutual
theorem hasComment_indentNode : ∀ (l : Nat) (t : XmlNode),
    hasCommentNode (indentNode l t) = hasCommentNode t
  | l, .comment c tl => rfl
  | l, .elem tag a tx ch tl => by
      rw [indentNode_elem]
      by_cases h : isNilF ch = true
      · simp [h, hasCommentNode]
      · simp only [h, if_false, Bool.false_eq_true, hasCommentNode]
        rw [hasComment_fixLast, hasComment_indentForest (l + 1) ch]

theorem hasComment_indentForest : ∀ (l : Nat) (F : XmlForest),
    hasCommentForest (indentForest l F) = hasCommentForest F
  | l, .nil => rfl
  | l, .cons c cs => by
      rw [indentForest_cons_shape]
      simp only [hasCommentForest]
      rw [hasComment_indentNode l c, hasComment_indentForest l cs]
end

mutual
theorem indentNode_idem : ∀ (l : Nat) (t : XmlNode),
    indentNode l (indentNode l t) = indentNode l t
  | l, .comment c tl => by
      rw [indentNode_comment, indentNode_comment, tailStep_idem]
  | l, .elem tag a tx ch tl => by
      by_cases h : isNilF ch = true
      · rw [indentNode_elem]
        simp only [h, if_true]
        rw [indentNode_elem]
        simp only [h, if_true, tailStep_idem]
      · have hf : isNilF ch = false := by simpa using h
        rw [indentNode_elem]
        simp only [hf, Bool.false_eq_true, if_false]
        rw [indentNode_elem]
        have hch : isNilF (fixLast (indentChars l) (indentForest (l + 1) ch)) = false := by
          rw [isNilF_fixLast, isNilF_indentForest, hf]
        simp only [hch, Bool.false_eq_true, if_false]
        rw [tailStb_idem _ (blankChars_textIndent l), tailStep_idem,
          indentForestFix_idem (l + 1) (indentChars l) (blankChars_indentChars l) ch]

theorem indentForestFix_idem : ∀ (l : Nat) (ind : List Char),
    blankChars ind = true → ∀ (F : XmlForest),
    fixLast ind (indentForest l (fixLast ind (indentForest l F))) =
      fixLast ind (indentForest l F)
  | l, ind, hind, .nil => rfl
  | l, ind, hind, .cons d .nil => by
      rw [indentForest_cons_shape]
      simp only [show indentForest l XmlForest.nil = XmlForest.nil from rfl]
      rw [fixLast_singleton, indentForest_cons_shape]
      simp only [show indentForest l XmlForest.nil = XmlForest.nil from rfl]
      rw [fixLast_singleton,
        setTail_indent_setTail l ind hind (indentNode l d) (indentNode_idem l d)]
  | l, ind, hind, .cons d (.cons e es) => by
      have IH := indentForestFix_idem l ind hind (.cons e es)
      obtain ⟨b, bs, hB⟩ := exists_cons_of_not_isNilF
        (fixLast ind (indentForest l (.cons e es)))
        (by rw [isNilF_fixLast, isNilF_indentForest]; rfl)
      rw [hB] at IH
      simp only [indentForest_cons_shape] at hB IH ⊢
      rw [fixLast_cons_cons, hB]
      simp only [indentForest_cons_shape]
      rw [fixLast_cons_cons, indentNode_idem l d, IH]
end

theorem indentRoot_eq (r : XmlRoot) :
    indentRoot r = if isNilF r.children then r
      else { r with
        text := tailStb (indentChars 0 ++ [' ', ' ']) r.text
        children := fixLast (indentChars 0) (indentForest 1 r.children)
        tail := tailStep true 0 r.tail } := rfl

theorem hasComment_indentRoot_children (r : XmlRoot) :
    hasCommentForest (indentRoot r).children = hasCommentForest r.children := by
  rw [indentRoot_eq]
  by_cases h : isNilF r.children = true
  · simp [h]
  · have hf : isNilF r.children = false := by simpa using h
    simp [hf, hasComment_fixLast, hasComment_indentForest]

theorem indentRoot_idem (r : XmlRoot) : indentRoot (indentRoot r) = indentRoot r := by
  by_cases h : isNilF r.children = true
  · simp [indentRoot_eq, h]
  · have hf : isNilF r.children = false := by simpa using h
    simp only [indentRoot_eq, hf, Bool.false_eq_true, if_false]
    have hch : isNilF (fixLast (indentChars 0) (indentForest 1 r.children)) = false := by
      rw [isNilF_fixLast, isNilF_indentForest, hf]
    simp only [hch, Bool.false_eq_true, if_false]
    simp [tailStb_idem _ (blankChars_textIndent 0), tailStep_idem,
      indentForestFix_idem 1 (indentChars 0) (blankChars_indentChars 0)]

theorem removeLoop_ok_of_commentFree : ∀ (F : XmlForest),
    hasCommentForest F = false → removeLoop F = .ok F
  | .nil, _ => rfl
  | .cons (.comment c tl) cs, h => by
      simp [hasCommentForest, hasCommentNode] at h
  | .cons (.elem t a tx ch tl) cs, h => by
      simp only [hasCommentForest, hasCommentNode, Bool.or_eq_false_iff] at h
      simp only [removeLoop, h.1, Bool.false_eq_true, if_false]
      rw [removeLoop_ok_of_commentFree cs h.2]

/-- Claim C7 (confirmed): with scour unavailable, `optimize_svg` is
idempotent.  The tree `ET.fromstring` produces for any valid SVG string
contains no comment nodes (the default parser discards them) — the
hypothesis `h` states exactly that the argument is such a parse tree.
The first pass leaves the removal loop a no-op and returns the indented
tree; a second pass returns exactly the same tree, so the serialized
outputs are byte-identical. -/
theorem c7_optimize_idempotent (r : XmlRoot)
    (h : hasCommentForest r.children = false) :
    optimize_svg r = .ok (indentRoot r) ∧
    optimize_svg (indentRoot r) = .ok (indentRoot r) := by
  have h1 : optimize_svg r = .ok (indentRoot r) := by
    unfold optimize_svg basic_svg_optimization
    rw [removeLoop_ok_of_commentFree r.children h]
  refine ⟨h1, ?_⟩
  have h2 : hasCommentForest (indentRoot r).children = false := by
    rw [hasComment_indentRoot_children, h]
  unfold optimize_svg basic_svg_optimization
  rw [removeLoop_ok_of_commentFree _ h2]
  show Except.ok (indentRoot (indentRoot r)) = Except.ok (indentRoot r)
  rw [indentRoot_idem]

/-- Witness for C7 at the concrete parse tree of `<svg><g /></svg>`. -/
theorem c7_witness :
    hasCommentForest c7free.children = false ∧
    optimize_svg c7free = .ok (indentRoot c7free) ∧
    optimize_svg (indentRoot c7free) = .ok (indentRoot c7free) :=
  ⟨rfl, (c7_optimize_idempotent c7free rfl).1,
    (c7_optimize_idempotent c7free rfl).2⟩

/-- Claim C10 counterexample: on the valid SVG
`<svg><g><!--x--></g></svg>` — a comment nested inside a child element —
the claim asserts the fallback optimizer's `root.remove` raises
`ValueError` and that comment stripping succeeds only when all comments
are direct children of the root.  In fact `ET.fromstring`'s default
parser discards the nested comment before the loop runs (`c10parsed` is
the tree it returns), so `optimize_svg` succeeds, its output contains no
comment, and no `ValueError` is ever raised. -/
theorem c10_counterexample :
    optimize_svg c10parsed =
      .ok ⟨"svg", [], some ['\n', ' ', ' '],
        .cons (.elem "g" [] none .nil (some ['\n'])) .nil, some ['\n']⟩ ∧
    hasCommentForest
      (XmlForest.cons (.elem "g" [] none .nil (some ['\n'])) .nil) = false ∧
    optimize_svg c10parsed ≠ .error PyExn.valueError := by
  refine ⟨rfl, rfl, ?_⟩
  intro hc
  rw [show optimize_svg c10parsed =
    .ok (⟨"svg", [], some ['\n', ' ', ' '],
      .cons (.elem "g" [] none .nil (some ['\n'])) .nil, some ['\n']⟩ : XmlRoot)
    from rfl] at hc
  exact Except.noConfusion hc

/-- Claim C10 amended (and proved): with scour unavailable,
`optimize_svg` succeeds on every valid SVG and its output contains no
comment node, wherever comments appeared in the input — the default
ElementTree parser drops every comment (nested or not) at parse, so the
removal loop never encounters one and `root.remove` is never called. -/
theorem c10_fallback_succeeds_amended (r : XmlRoot)
    (h : hasCommentForest r.children = false) :
    optimize_svg r = .ok (indentRoot r) ∧
    hasCommentForest (indentRoot r).children = false := by
  constructor
  · unfold optimize_svg basic_svg_optimization
    rw [removeLoop_ok_of_commentFree r.children h]
  · rw [hasComment_indentRoot_children, h]

/-- Witness for the amended C10 at `c10parsed`, the parse tree of the
nested-comment SVG `<svg><g><!--x--></g></svg>`. -/
theorem c10_amended_witness :
    hasCommentForest c10parsed.children = false ∧
    optimize_svg c10parsed = .ok (indentRoot c10parsed) ∧
    hasCommentForest (indentRoot c10parsed).children = false :=
  ⟨rfl, (c10_fallback_succeeds_amended c10parsed rfl).1,
    (c10_fallback_succeeds_amended c10parsed rfl).2⟩
